import Mathlib

/-!
Verification of the mainframer synchronization/orchestration engine.

Shallow embedding of the Rust sources:
- `src/sync.rs`: push/pull transfer results, the pull coordinator
  (serial and parallel), `execute_rsync`, and
  `calculate_perceived_pull_duration`;
- `src/remote_command.rs`: the remote command executor and its
  completion broadcast;
- `src/config.rs`: configuration validation and defaults;
- `src/main.rs`: the run orchestrator.

Durations (`std::time::Duration`) are modelled as natural numbers
(a `Duration` is a non-negative amount of time; `checked_sub` is the
partial subtraction). External processes and channels are modelled by
passing their outcomes as explicit inputs (traces).
-/

namespace Mainframer

/-! ## Data model (src/sync.rs, src/remote_command.rs) -/

/-- `PushOk` from src/sync.rs: successful push with its duration. -/
structure PushOk where
  duration : Nat
  deriving Repr, DecidableEq

/-- `PushErr` from src/sync.rs: failed push with duration and message. -/
structure PushErr where
  duration : Nat
  message : String
  deriving Repr, DecidableEq

/-- `PullOk` from src/sync.rs: successful pull with its duration. -/
structure PullOk where
  duration : Nat
  deriving Repr, DecidableEq

/-- `PullErr` from src/sync.rs: failed pull with duration and message. -/
structure PullErr where
  duration : Nat
  message : String
  deriving Repr, DecidableEq

/-- `Result<PullOk, PullErr>` from src/sync.rs. -/
abbrev PullResult := Except PullErr PullOk

/-- `RemoteCommandOk` from src/remote_command.rs. -/
structure RemoteCommandOk where
  duration : Nat
  deriving Repr, DecidableEq

/-- `RemoteCommandErr` from src/remote_command.rs. -/
structure RemoteCommandErr where
  duration : Nat
  deriving Repr, DecidableEq

/-- `Result<RemoteCommandOk, RemoteCommandErr>` from src/remote_command.rs. -/
abbrev RemoteCommandResult := Except RemoteCommandErr RemoteCommandOk

/-- `PullMode` from src/sync.rs. -/
inductive PullMode where
  | Serial
  | Parallel
  deriving Repr, DecidableEq

/-! ## Perceived pull duration (src/sync.rs lines 385-393) -/

/-- `Duration::checked_sub`: `none` when the subtraction would underflow. -/
def checked_sub (a b : Nat) : Option Nat :=
  if b ≤ a then some (a - b) else none

/-- `calculate_perceived_pull_duration` from src/sync.rs: total pull
duration minus the remote command duration, clamped at zero via
`checked_sub`. -/
def calculate_perceived_pull_duration
    (total_pull_duration remote_command_duration : Nat) : Nat :=
  match checked_sub total_pull_duration remote_command_duration with
  | none => 0
  | some duration => duration

/-! ## Pull coordinator (src/sync.rs lines 130-254)

The coordinator threads interact with the outside world through
(a) repeated calls to `_pull` (an rsync process) and (b) the bus
reader carrying the remote command result.  We model a run by the
trace of outcomes those interactions would produce: a list of pull
outcomes (one per `_pull` invocation, in order) and a list of
`try_recv` outcomes (one per poll of the signal, in order). -/

/-- Outcome of `BusReader::try_recv` (`std::sync::mpsc::TryRecvError`
variants `Empty` and `Disconnected`, or a received value). -/
inductive TryRecv (α : Type) where
  | ok (a : α)
  | empty
  | disconnected
  deriving Repr

/-- The duration extracted from a remote command result in
`pull_parallel` (src/sync.rs lines 220-223): `err.duration` or
`ok.duration`. -/
def remote_command_duration : RemoteCommandResult → Nat
  | .error err => err.duration
  | .ok ok => ok.duration

/-- The final send of `pull_parallel` (src/sync.rs lines 226-245):
the final pull result with its duration replaced by the perceived
pull duration, its message (if any) kept. -/
def with_perceived_duration (elapsed rcd : Nat) : PullResult → PullResult
  | .error err => .error ⟨calculate_perceived_pull_duration elapsed rcd, err.message⟩
  | .ok _ => .ok ⟨calculate_perceived_pull_duration elapsed rcd⟩

/-- What a coordinator thread did during a run: the messages sent on
the `pull_finished` channel, in order, and the number of `_pull`
invocations performed. -/
structure CoordinatorRun where
  sent : List PullResult
  attempts : Nat
  deriving Repr

/-- The loop of `pull_parallel` (src/sync.rs lines 203-251), as a
function of the trace of `_pull` outcomes (`pulls`, consumed one per
`_pull` invocation), the trace of `try_recv` outcomes (`signals`,
consumed one per poll), and the value of `start_time.elapsed()` at
the moment the final send happens (`elapsed`).  Returns `none` when
the traces are too short to determine the run (the loop would keep
going).  Each iteration: perform a pull; on `Err` send it and break;
otherwise poll the signal: `Disconnected` breaks silently, `Empty`
sleeps and repeats, a received result triggers one final pull whose
result is sent with the perceived duration. -/
def pull_parallel_loop (pulls : List PullResult)
    (signals : List (TryRecv RemoteCommandResult)) (elapsed : Nat) :
    Option CoordinatorRun :=
  match pulls with
  | [] => none
  | p :: ps =>
    match p with
    | .error pull_err => some ⟨[.error pull_err], 1⟩
    | .ok _ =>
      match signals with
      | [] => none
      | s :: ss =>
        match s with
        | .disconnected => some ⟨[], 1⟩
        | .empty =>
          match pull_parallel_loop ps ss elapsed with
          | none => none
          | some run => some ⟨run.sent, run.attempts + 1⟩
        | .ok remote_command_result =>
          match ps with
          | [] => none
          | final_pull :: _ =>
            some ⟨[with_perceived_duration elapsed
                     (remote_command_duration remote_command_result) final_pull], 2⟩

/-- Outcome of the blocking `BusReader::recv` in `pull_serial`:
either a value arrives, or the producer never publishes and the
thread stays blocked, or the bus is dropped without a publish
(`recv` returns `Err` and the `expect` panics). -/
inductive RecvOutcome (α : Type) where
  | value (a : α)
  | blockedForever
  | disconnected
  deriving Repr

/-- What the serial coordinator thread did: messages sent, `_pull`
invocations, and whether the thread panicked. -/
structure SerialRun where
  sent : List PullResult
  attempts : Nat
  panicked : Bool
  deriving Repr

/-- The thread body of `pull_serial` (src/sync.rs lines 157-187):
block on `recv` of the remote command signal (ignoring the received
value), then perform exactly one `_pull` (whose outcome is the trace
input `pull_outcome`) and send its result. -/
def pull_serial (signal : RecvOutcome RemoteCommandResult)
    (pull_outcome : PullResult) : SerialRun :=
  match signal with
  | .blockedForever => ⟨[], 0, false⟩
  | .disconnected => ⟨[], 0, true⟩
  | .value _ => ⟨[pull_outcome], 1, false⟩

/-! ## Configuration (src/config.rs)

Compression levels are `i8` in the source; they are modelled as `Int`
(every value the claims mention fits in `i8`).  The YAML text parser
(`serde_yaml`) is an external collaborator: `from_file_contents` is
modelled as a function of that parser's outcome, followed by the
validation logic of src/config.rs lines 24-52. -/

/-- `Remote` from src/config.rs. -/
structure Remote where
  host : String
  user : Option String
  port : Option String
  path : Option String
  deriving Repr, DecidableEq

/-- `Push` from src/config.rs. -/
structure Push where
  compression : Int
  user : Option String
  deriving Repr, DecidableEq

/-- `Pull` from src/config.rs. -/
structure Pull where
  compression : Int
  mode : PullMode
  user : Option String
  deriving Repr, DecidableEq

/-- `Config` from src/config.rs. -/
structure Config where
  remote : Remote
  push : Push
  pull : Pull
  deriving Repr, DecidableEq

/-- `impl Default for PullMode` from src/sync.rs: `Serial`. -/
def PullMode.default : PullMode := .Serial

/-- `impl Default for Push` from src/config.rs: compression 3, no user. -/
def Push.default : Push := ⟨3, none⟩

/-- `impl Default for Pull` from src/config.rs: compression 1,
default pull mode, no user. -/
def Pull.default : Pull := ⟨1, PullMode.default, none⟩

/-- `Config::valid_pull_compression_range`: `(1..=9).contains(...)`. -/
def Config.valid_pull_compression_range (config : Config) : Bool :=
  decide (1 ≤ config.pull.compression ∧ config.pull.compression ≤ 9)

/-- `Config::valid_push_compression_range`: `(1..=9).contains(...)`. -/
def Config.valid_push_compression_range (config : Config) : Bool :=
  decide (1 ≤ config.push.compression ∧ config.push.compression ≤ 9)

/-- `Config::from_file_contents` from src/config.rs, as a function of
the outcome of the external YAML parse (`serde_yaml::from_str`, whose
error is already a string): validate both compression ranges, with
the pull error checked first exactly as in the source `match`. -/
def Config.from_file_contents (parsed : Except String Config) : Except String Config :=
  parsed.bind fun config =>
    match config.valid_pull_compression_range, config.valid_push_compression_range with
    | true, true => .ok config
    | false, _ =>
      .error ("\x27pull.compression\x27 must be a positive integer from 1 to 9, but was "
        ++ toString config.pull.compression)
    | _, false =>
      .error ("\x27push.compression\x27 must be a positive integer from 1 to 9, but was "
        ++ toString config.push.compression)

/-- The structure that serde builds for a configuration file holding
only `remote.host`, per the attributes in src/config.rs: `user`,
`port`, `path` are `Option` fields absent from the file, and the
`push` and `pull` sections carry `#[serde(default)]`, so they take
`Push::default()` and `Pull::default()`. -/
def host_only_parsed (host : String) : Config :=
  ⟨⟨host, none, none, none⟩, Push.default, Pull.default⟩

/-! ## Transfer executor (src/sync.rs lines 352-383) -/

/-- What happened to the rsync delegate process, as the inputs of
`execute_rsync`: the spawn failed, the wait (`wait_with_output`)
failed, or the process ran and exited with an optional exit code
(`None` when killed by a signal) and captured output. -/
inductive RsyncRun where
  | spawnFailure
  | waitFailure
  | exited (code : Option Int) (stdout stderr : String)
  deriving Repr, DecidableEq

/-- Outcome of `execute_rsync`: either the thread panicked (the
source calls `.unwrap()` / `.expect(...)` on spawn and stream
copies), or it completed with `Result<(), String>`. -/
inductive RsyncOutcome where
  | panicked
  | completed (r : Except String Unit)
  deriving Repr

/-- `execute_rsync` from src/sync.rs: spawn failure panics via
`.unwrap()`; a `wait_with_output` error yields the generic message;
exit code `None` yields the terminated message; exit code 0 is `Ok`;
any other exit code yields the message embedding the exit code and
the captured stdout and stderr. -/
def execute_rsync : RsyncRun → RsyncOutcome
  | .spawnFailure => .panicked
  | .waitFailure => .completed (.error "Generic rsync error.")
  | .exited none _ _ => .completed (.error "rsync was terminated.")
  | .exited (some status_code) stdout stderr =>
    if status_code = 0 then
      .completed (.ok ())
    else
      .completed (.error
        ("rsync exit code \x27" ++ toString status_code
          ++ "\x27,\nrsync stdout \x27" ++ stdout
          ++ "\x27,\nrsync stderr \x27" ++ stderr ++ "\x27."))

/-- The wrapping that `push` (src/sync.rs lines 119-127) and `_pull`
(src/sync.rs lines 307-315) apply to `execute_rsync`: an `Err` reason
becomes `Err { duration: start_time.elapsed(), message: reason }`, an
`Ok` becomes `Ok { duration: start_time.elapsed() }`.  `none` when
`execute_rsync` panicked (no result is produced at all). -/
def transfer_result (elapsed : Nat) (run : RsyncRun) : Option PullResult :=
  match execute_rsync run with
  | .panicked => none
  | .completed (.ok _) => some (.ok ⟨elapsed⟩)
  | .completed (.error reason) => some (.error ⟨elapsed, reason⟩)

/-! ## Run orchestrator (src/main.rs) -/

/-- Modelled from the spec: `format_duration` lives in src/time.rs,
which is declared in src/main.rs (`mod time;`) but absent from the
sources.  The spec only requires a human-readable rendering of an
elapsed duration inside log messages, modelled as the decimal
rendering of the duration. -/
def format_duration (duration : Nat) : String := toString duration

/-- `Result::is_err`. -/
def is_err {ε α : Type} : Except ε α → Bool
  | .error _ => true
  | .ok _ => false

/-- Observable outcome of one run of `main` (src/main.rs): the process
exit code, the diagnostics logged through `tracing::error` /
`exit_with_error` in order, and whether the remote command and pull
phases were ever started. -/
structure RunResult where
  exitCode : Nat
  errorLogs : List String
  remoteStarted : Bool
  pullStarted : Bool
  deriving Repr, DecidableEq

/-- The run of `main` from src/main.rs lines 58-131, as a function of
the outcomes the collaborators deliver: the push result, the remote
command result received from its bus listener, the pull result
received from the coordinator channel, and the total elapsed
duration.  A push failure exits immediately with code 1 and the push
diagnostic, before the remote command or the pull are started; on
push success both are started, failures are logged as they are known,
and the run exits 1 with a final failure diagnostic when the remote
command or the pull failed, 0 otherwise. -/
def main_run (push_result : Except PushErr PushOk)
    (remote_command_result : RemoteCommandResult) (pull_result : PullResult)
    (total_duration : Nat) : RunResult :=
  match push_result with
  | .error err =>
    ⟨1, ["Push failed: " ++ err.message ++ ", took " ++ format_duration err.duration],
     false, false⟩
  | .ok _ =>
    let exec_logs : List String :=
      match remote_command_result with
      | .error err => ["\nExecution failed: took " ++ format_duration err.duration ++ "."]
      | .ok _ => []
    let pull_logs : List String :=
      match pull_result with
      | .error err =>
        ["Pull failed: " ++ err.message ++ ", took " ++ format_duration err.duration ++ "."]
      | .ok _ => []
    if is_err remote_command_result || is_err pull_result then
      ⟨1, exec_logs ++ pull_logs
            ++ ["\nFailure: took " ++ format_duration total_duration ++ "."],
       true, true⟩
    else
      ⟨0, exec_logs ++ pull_logs, true, true⟩

/-! ## Completion broadcast (src/remote_command.rs lines 22-45)

The bus itself comes from the external `bus` crate; its delivery
semantics is modelled from the spec (section 4.3).  The order of
operations — all registrations before the single broadcast — comes
from `execute_remote_command` in the source. -/

/-- An operation performed on the completion broadcast, in program
order: a listener registration (`bus.add_rx()`) or the single
publication (`bus.broadcast(result)`). -/
inductive BusEvent (α : Type) where
  | register
  | publish (a : α)
  deriving Repr

/-- Number of listener registrations in a bus history. -/
def registerCount {α : Type} : List (BusEvent α) → Nat
  | [] => 0
  | .register :: tr => registerCount tr + 1
  | .publish _ :: tr => registerCount tr

/-- Values published in a bus history, in order. -/
def publishedValues {α : Type} : List (BusEvent α) → List α
  | [] => []
  | .register :: tr => publishedValues tr
  | .publish a :: tr => a :: publishedValues tr

/-- Modelled from the spec: the delivery semantics of the Completion
Broadcast (the external `bus` crate): the listener registered by the
`id`-th registration (0-based, in registration order) receives exactly
the values published after its registration, each exactly once, and
nothing else; `none` when no such registration exists. -/
def listener_receives {α : Type} : Nat → List (BusEvent α) → Option (List α)
  | _, [] => none
  | 0, .register :: tr => some (publishedValues tr)
  | n + 1, .register :: tr => listener_receives n tr
  | n, .publish _ :: tr => listener_receives n tr

/-- The bus history produced by `execute_remote_command` from
src/remote_command.rs: the bus is created, exactly
`number_of_readers` listeners are added by the registration loop, and
only then does the spawned thread broadcast the single result of
`_execute_remote_command`. -/
def execute_remote_command_events (number_of_readers : Nat)
    (result : RemoteCommandResult) : List (BusEvent RemoteCommandResult) :=
  List.replicate number_of_readers .register ++ [.publish result]

/-! ## Theorems -/

/-- Claim C1: the perceived pull duration equals
`total - remoteCommandDuration` when `total ≥ remoteCommandDuration`
and zero otherwise (never negative); in particular
`perceived(10ms,10ms) = 0`, `perceived(10s,8s) = 2s` and
`perceived(7s,9s) = 0` (durations in milliseconds). -/
theorem c1_perceived_pull_duration (total rcd : Nat) :
    (rcd ≤ total → calculate_perceived_pull_duration total rcd = total - rcd) ∧
    (total < rcd → calculate_perceived_pull_duration total rcd = 0) ∧
    calculate_perceived_pull_duration 10 10 = 0 ∧
    calculate_perceived_pull_duration 10000 8000 = 2000 ∧
    calculate_perceived_pull_duration 7000 9000 = 0 := by
  refine ⟨?_, ?_, by decide, by decide, by decide⟩
  · intro h
    simp [calculate_perceived_pull_duration, checked_sub, h]
  · intro h
    simp [calculate_perceived_pull_duration, checked_sub, Nat.not_le.mpr h]

/-- Witness for C1 at concrete inputs discharging both hypotheses. -/
theorem c1_perceived_pull_duration_witness :
    (8 ≤ 10 ∧ calculate_perceived_pull_duration 10 8 = 10 - 8) ∧
    (7 < 9 ∧ calculate_perceived_pull_duration 7 9 = 0) :=
  ⟨⟨by decide, (c1_perceived_pull_duration 10 8).1 (by decide)⟩,
   ⟨by decide, (c1_perceived_pull_duration 7 9).2.1 (by decide)⟩⟩

/-- Claim C2: in Parallel mode, whenever a periodic (non-final) pull
attempt fails — here after `prior.length` successful periodic pulls
whose polls found the signal empty — the coordinator sends exactly
that pull's `Err` and terminates after exactly `prior.length + 1`
pull attempts: no further pull (in particular no final reconciliation
pull, whatever the rest of the traces holds) and no retry. -/
theorem c2_parallel_pull_failure_fatal (prior : List Nat) (pull_err : PullErr)
    (rest_pulls : List PullResult) (rest_signals : List (TryRecv RemoteCommandResult))
    (elapsed : Nat) :
    pull_parallel_loop
      (prior.map (fun d => .ok ⟨d⟩) ++ .error pull_err :: rest_pulls)
      (List.replicate prior.length .empty ++ rest_signals) elapsed
      = some ⟨[.error pull_err], prior.length + 1⟩ := by
  induction prior with
  | nil => rfl
  | cons d ds ih =>
    simp only [List.map_cons, List.cons_append, List.length_cons,
      List.replicate_succ, pull_parallel_loop, List.append_eq, ih]

/-- Claim C3: in Parallel mode, whenever the non-blocking check finds
the remote command result available (Ok or Err) — here after
`prior.length` periodic pulls with empty polls and one more successful
periodic pull — the coordinator performs exactly one final pull,
terminates (total `prior.length + 2` attempts), and delivers the final
pull's result with its duration replaced by the perceived duration
`calculate_perceived_pull_duration elapsed (remote command duration)`,
where `elapsed` is the time since the coordinator started. -/
theorem c3_parallel_final_pull (prior : List Nat) (d : Nat)
    (rcr : RemoteCommandResult) (final_pull : PullResult)
    (rest_pulls : List PullResult) (rest_signals : List (TryRecv RemoteCommandResult))
    (elapsed : Nat) :
    pull_parallel_loop
      (prior.map (fun x => .ok ⟨x⟩) ++ .ok ⟨d⟩ :: final_pull :: rest_pulls)
      (List.replicate prior.length .empty ++ .ok rcr :: rest_signals) elapsed
      = some ⟨[with_perceived_duration elapsed (remote_command_duration rcr) final_pull],
              prior.length + 2⟩ := by
  induction prior with
  | nil => rfl
  | cons x xs ih =>
    simp only [List.map_cons, List.cons_append, List.length_cons,
      List.replicate_succ, pull_parallel_loop, List.append_eq, ih]

/-- Claim C4: in Serial mode the coordinator performs exactly one pull
attempt, only after the remote command result has been received (while
blocked, zero attempts and nothing sent), the received value is
ignored (the run is the same for every received value), and exactly
one TransferResult is delivered. -/
theorem c4_serial_one_pull_after_signal (r : RemoteCommandResult)
    (pull_outcome : PullResult) :
    pull_serial (.value r) pull_outcome = ⟨[pull_outcome], 1, false⟩ ∧
    pull_serial .blockedForever pull_outcome = ⟨[], 0, false⟩ := by
  exact ⟨rfl, rfl⟩

/-- Claim C7: a parsed configuration whose push and pull compression
levels both lie in [1,9] is accepted; a pull compression outside [1,9]
is rejected with a message naming `pull.compression` and the value; a
push compression outside [1,9] (with a valid pull compression) is
rejected with a message naming `push.compression` and the value. -/
theorem c7_compression_validation (config : Config) :
    (1 ≤ config.push.compression ∧ config.push.compression ≤ 9 ∧
     1 ≤ config.pull.compression ∧ config.pull.compression ≤ 9 →
      Config.from_file_contents (.ok config) = .ok config) ∧
    (¬(1 ≤ config.pull.compression ∧ config.pull.compression ≤ 9) →
      Config.from_file_contents (.ok config) =
        .error ("\x27pull.compression\x27 must be a positive integer from 1 to 9, but was "
          ++ toString config.pull.compression)) ∧
    (1 ≤ config.pull.compression ∧ config.pull.compression ≤ 9 →
     ¬(1 ≤ config.push.compression ∧ config.push.compression ≤ 9) →
      Config.from_file_contents (.ok config) =
        .error ("\x27push.compression\x27 must be a positive integer from 1 to 9, but was "
          ++ toString config.push.compression)) := by
  refine ⟨?_, ?_, ?_⟩
  · rintro ⟨h1, h2, h3, h4⟩
    simp [Config.from_file_contents, Except.bind, Config.valid_pull_compression_range,
      Config.valid_push_compression_range, h1, h2, h3, h4]
  · intro h
    simp [Config.from_file_contents, Except.bind, Config.valid_pull_compression_range,
      Config.valid_push_compression_range, h]
  · intro h h'
    simp [Config.from_file_contents, Except.bind, Config.valid_pull_compression_range,
      Config.valid_push_compression_range, h, h']

/-- Witness for C7: an accepted configuration (push 5, pull 2), a
rejected pull compression 0, and a rejected push compression 10. -/
theorem c7_compression_validation_witness :
    Config.from_file_contents
        (.ok ⟨⟨"computer1", none, none, none⟩, ⟨5, none⟩, ⟨2, PullMode.Serial, none⟩⟩)
      = .ok ⟨⟨"computer1", none, none, none⟩, ⟨5, none⟩, ⟨2, PullMode.Serial, none⟩⟩ ∧
    Config.from_file_contents
        (.ok ⟨⟨"computer1", none, none, none⟩, ⟨5, none⟩, ⟨0, PullMode.Serial, none⟩⟩)
      = .error ("\x27pull.compression\x27 must be a positive integer from 1 to 9, but was "
          ++ toString (0 : Int)) ∧
    Config.from_file_contents
        (.ok ⟨⟨"computer1", none, none, none⟩, ⟨10, none⟩, ⟨2, PullMode.Serial, none⟩⟩)
      = .error ("\x27push.compression\x27 must be a positive integer from 1 to 9, but was "
          ++ toString (10 : Int)) :=
  ⟨(c7_compression_validation _).1 (by decide),
   (c7_compression_validation _).2.1 (by decide),
   (c7_compression_validation _).2.2 (by decide) (by decide)⟩

/-- Claim C10: a configuration file holding only the remote host
parses to the defaults — push compression 3, pull compression 1, pull
mode Serial, no per-operation users — and passes validation. -/
theorem c10_host_only_defaults (host : String) :
    Config.from_file_contents (.ok (host_only_parsed host))
      = .ok ⟨⟨host, none, none, none⟩, ⟨3, none⟩, ⟨1, PullMode.Serial, none⟩⟩ ∧
    Push.default = ⟨3, none⟩ ∧ Pull.default = ⟨1, PullMode.Serial, none⟩ :=
  ⟨rfl, rfl, rfl⟩

/-- Claim C5: when the push fails, the run exits with code 1 reporting
the push diagnostic message and elapsed duration, and neither the
remote command nor the pull is ever started. -/
theorem c5_push_failure_aborts_run (err : PushErr) (rc : RemoteCommandResult)
    (pl : PullResult) (total_duration : Nat) :
    main_run (.error err) rc pl total_duration =
      ⟨1, ["Push failed: " ++ err.message ++ ", took " ++ format_duration err.duration],
       false, false⟩ :=
  rfl

/-- Claim C6: the run exits 0 exactly when push, remote command and
pull all succeed; the exit code is always 0 or 1; a nonzero exit is
accompanied by a logged diagnostic; in particular push success with
remote command failure and pull success still exits 1. -/
theorem c6_exit_code_conjunction (push_result : Except PushErr PushOk)
    (rc : RemoteCommandResult) (pl : PullResult) (total_duration : Nat) :
    ((main_run push_result rc pl total_duration).exitCode = 0 ↔
      is_err push_result = false ∧ is_err rc = false ∧ is_err pl = false) ∧
    ((main_run push_result rc pl total_duration).exitCode = 0 ∨
      (main_run push_result rc pl total_duration).exitCode = 1) ∧
    ((main_run push_result rc pl total_duration).exitCode = 0 ∨
      (main_run push_result rc pl total_duration).errorLogs ≠ []) ∧
    (main_run (.ok ⟨total_duration⟩) (.error ⟨total_duration⟩) (.ok ⟨total_duration⟩)
        total_duration).exitCode = 1 := by
  refine ⟨?_, ?_, ?_, rfl⟩ <;>
    rcases push_result with err | ok <;> rcases rc with rerr | rok <;>
      rcases pl with perr | pok <;> simp [main_run, is_err]

/-- Claim C8 fails on the code: a failure to launch the rsync delegate
does not yield an Err — `execute_rsync` calls `.spawn().unwrap()`, so
the thread panics and no transfer result is produced at all. -/
theorem c8_counterexample_spawn_panics :
    execute_rsync .spawnFailure = .panicked ∧ transfer_result 0 .spawnFailure = none :=
  ⟨rfl, rfl⟩

/-- Claim C8 as amended: exit code 0 yields Ok with the elapsed time;
a nonzero exit code yields Err with the elapsed time and a message
embedding the exit code, stdout and stderr; a failure to wait yields
the distinct generic Err; termination without an exit code yields the
distinct terminated Err; but a failure to launch panics (no result)
instead of yielding an Err. -/
theorem c8_transfer_executor_amended (elapsed : Nat) (status_code : Int)
    (stdout stderr : String) :
    transfer_result elapsed (.exited (some 0) stdout stderr) = some (.ok ⟨elapsed⟩) ∧
    (status_code ≠ 0 → transfer_result elapsed (.exited (some status_code) stdout stderr)
      = some (.error ⟨elapsed,
          "rsync exit code \x27" ++ toString status_code ++ "\x27,\nrsync stdout \x27"
            ++ stdout ++ "\x27,\nrsync stderr \x27" ++ stderr ++ "\x27."⟩)) ∧
    transfer_result elapsed .waitFailure = some (.error ⟨elapsed, "Generic rsync error."⟩) ∧
    transfer_result elapsed (.exited none stdout stderr)
      = some (.error ⟨elapsed, "rsync was terminated."⟩) ∧
    transfer_result elapsed .spawnFailure = none := by
  refine ⟨rfl, ?_, rfl, rfl, rfl⟩
  intro h
  simp [transfer_result, execute_rsync, h]

/-- Witness for C8 (amended): a concrete nonzero exit code. -/
theorem c8_transfer_executor_amended_witness :
    transfer_result 7 (.exited (some 23) "out" "err")
      = some (.error ⟨7,
          "rsync exit code \x27" ++ toString (23 : Int) ++ "\x27,\nrsync stdout \x27"
            ++ "out" ++ "\x27,\nrsync stderr \x27" ++ "err" ++ "\x27."⟩) :=
  (c8_transfer_executor_amended 7 23 "out" "err").2.1 (by decide)

/-- Prepending registrations publishes nothing. -/
theorem publishedValues_replicate_register (n : Nat) {α : Type}
    (tr : List (BusEvent α)) :
    publishedValues (List.replicate n .register ++ tr) = publishedValues tr := by
  induction n with
  | zero => simp
  | succ m ih => simpa [List.replicate_succ, publishedValues] using ih

/-- Prepending registrations adds to the registration count. -/
theorem registerCount_replicate_register (n : Nat) {α : Type}
    (tr : List (BusEvent α)) :
    registerCount (List.replicate n .register ++ tr) = n + registerCount tr := by
  induction n with
  | zero => simp
  | succ m ih =>
    simp [List.replicate_succ, registerCount, ih]
    omega

/-- A listener among the first `n` registrations receives exactly the
values published after the whole registration block. -/
theorem listener_receives_replicate_register {α : Type} (n id : Nat)
    (h : id < n) (tr : List (BusEvent α)) :
    listener_receives id (List.replicate n .register ++ tr)
      = some (publishedValues tr) := by
  induction n generalizing id with
  | zero => omega
  | succ m ih =>
    cases id with
    | zero =>
      simp [List.replicate_succ, listener_receives, publishedValues_replicate_register]
    | succ j =>
      simpa [List.replicate_succ, listener_receives] using ih j (by omega)

/-- Claim C9: `execute_remote_command` with `n` readers registers
exactly `n` listeners before any work, the single result is published
exactly once, every registered listener receives exactly one copy of
the identical result, and while only the registrations have happened
(before the publish) no listener has received any value. -/
theorem c9_broadcast_exactly_once (n : Nat) (result : RemoteCommandResult)
    (id : Nat) (h : id < n) :
    registerCount (execute_remote_command_events n result) = n ∧
    publishedValues (execute_remote_command_events n result) = [result] ∧
    listener_receives id (execute_remote_command_events n result) = some [result] ∧
    listener_receives id
        (List.replicate n (BusEvent.register) : List (BusEvent RemoteCommandResult))
      = some [] := by
  refine ⟨?_, ?_, ?_, ?_⟩
  · simp [execute_remote_command_events, registerCount_replicate_register, registerCount]
  · simp [execute_remote_command_events, publishedValues_replicate_register,
      publishedValues]
  · simpa [execute_remote_command_events, publishedValues] using
      listener_receives_replicate_register n id h [.publish result]
  · simpa [publishedValues] using
      listener_receives_replicate_register n id h ([] : List (BusEvent RemoteCommandResult))

/-- Witness for C9: two listeners (as in the program) and the first
listener, with a concrete successful remote command result. -/
theorem c9_broadcast_exactly_once_witness :
    registerCount (execute_remote_command_events 2 (.ok ⟨5⟩)) = 2 ∧
    publishedValues (execute_remote_command_events 2 (.ok ⟨5⟩)) = [.ok ⟨5⟩] ∧
    listener_receives 0 (execute_remote_command_events 2 (.ok ⟨5⟩)) = some [.ok ⟨5⟩] ∧
    listener_receives 0
        (List.replicate 2 (BusEvent.register) : List (BusEvent RemoteCommandResult))
      = some [] :=
  c9_broadcast_exactly_once 2 (.ok ⟨5⟩) 0 (by decide)

end Mainframer
